import Mathlib

/-!
Shallow embedding of the ai-readiness-auditor server (src/server.js, together
with the earlier variant of the same server whose file name is unknown).

The embedded parts are the ones the specification's claims are about:

* the OAuth token lifecycle manager `getValidAccessToken`;
* the OAuth callback's credential upsert (`/api/oauth-callback`);
* the `/api/ai-readiness-audit` metric fan-out and its eight probes.

Modelling conventions:

* every external HTTP interaction is an explicit oracle argument; a fetch (or
  a later `.json()` parse) that throws is `Except.error msg`, a settled
  response is `Except.ok body` carrying the response's `ok` flag and the
  decoded JSON fields the code reads;
* timestamps are integers, in milliseconds since the epoch (the code stores
  `expires_at` as an ISO-8601 rendering of such a timestamp; we keep the
  timestamp itself);
* `Number.prototype.toLocaleString()` is modelled as plain decimal rendering
  (no locale digit grouping);
* `Math.round(x)` on the nonnegative ratios the code builds is round half
  up, `mathRound`, computed in exact integer arithmetic (the code computes
  the ratio in floating point; we model exact real arithmetic);
* the Supabase tables (`ai-readiness-hubspot_tokens`, resp. `hubspot_tokens`
  in the earlier variant — identical schema and access pattern) are a list of
  rows keyed by the integer `id` column.
-/

deriving instance DecidableEq for Except

namespace AiReadiness

/-- One row of the token table, with the columns the server selects:
`refresh_token, access_token, expires_at`. -/
structure Installation where
  refresh_token : String
  access_token : String
  expires_at : Int
deriving DecidableEq

/-- The token table: rows keyed by the integer `id` column. -/
abbrev Store := List (Nat × Installation)

/-- `supabase.from(tokens).select(columns).eq('id', id).single()`:
the first row carrying the given id, if any. -/
def selectSingle : Store → Nat → Option Installation
  | [], _ => none
  | row :: rest, id => if row.fst == id then some row.snd else selectSingle rest id

/-- `supabase.from(tokens).update({ access_token, expires_at }).eq('id', id)`:
overwrite exactly those two columns of every row matching the id; in
particular the `refresh_token` column of a matching row is untouched. -/
def updateRow : Store → Nat → String → Int → Store
  | [], _, _, _ => []
  | row :: rest, id, access, newExpiresAt =>
      (if row.fst == id then
        (row.fst, { row.snd with access_token := access, expires_at := newExpiresAt })
      else row) :: updateRow rest id access newExpiresAt

/-- The conflict branch of the upsert: replace every row matching the id. -/
def upsertReplace : Store → Nat → Installation → Store
  | [], _, _ => []
  | r :: rest, id, row => (if r.fst == id then (id, row) else r) :: upsertReplace rest id row

/-- `supabase.from(tokens).upsert(row, { onConflict: 'id' })`: replace the
row matching the id, or append the row when no row matches. -/
def upsertById (store : Store) (id : Nat) (row : Installation) : Store :=
  if store.any (fun r => r.fst == id) then
    upsertReplace store id row
  else
    store ++ [(id, row)]

/-- The provider's JSON body for a `grant_type=refresh_token` exchange. The
code reads `access_token` and `expires_in`; the body may also carry a new
`refresh_token`, which the code never reads. `expires_in` is in seconds. -/
structure RefreshResponse where
  ok : Bool
  access_token : String
  expires_in : Int
  refresh_token : Option String
deriving DecidableEq

/-- The error taxonomy of `getValidAccessToken`: the two `throw new Error`
sites (messages elided). -/
inductive TokenError where
  | installationMissing
  | refreshFailed
deriving DecidableEq

/-- The observable outcome of one `getValidAccessToken` call: the returned
token or thrown error, the token table afterwards, how many calls to the
provider's token endpoint were made, and how many storage writes. -/
structure TokenOutcome where
  result : Except TokenError String
  store : Store
  refreshCalls : Nat
  storageWrites : Nat
deriving DecidableEq

/-- `getValidAccessToken` (src/server.js lines 28-45; the earlier variant,
lines 27-44, is the same function except that it takes a `portalId` argument
it never uses — modelled here as an `Option String` so that the absent case
of the parameterless variant is included):

1. select the `id = 1` row; absent row throws (installation missing);
2. if `now > expires_at`, POST the refresh grant; a non-ok response throws
   (refresh failed) before any write; otherwise update `access_token` and
   `expires_at := now + expires_in * 1000` on the `id = 1` row and return the
   fresh `access_token`;
3. otherwise return the stored `access_token` with no network call or write. -/
def getValidAccessToken (portalId : Option String) (now : Int)
    (refreshFetch : String → RefreshResponse) (store : Store) : TokenOutcome :=
  match selectSingle store 1 with
  | none =>
      { result := .error .installationMissing, store := store
        refreshCalls := 0, storageWrites := 0 }
  | some installation =>
      if now > installation.expires_at then
        if !(refreshFetch installation.refresh_token).ok then
          { result := .error .refreshFailed, store := store
            refreshCalls := 1, storageWrites := 0 }
        else
          { result := .ok (refreshFetch installation.refresh_token).access_token
            store := updateRow store 1 (refreshFetch installation.refresh_token).access_token
              (now + (refreshFetch installation.refresh_token).expires_in * 1000)
            refreshCalls := 1, storageWrites := 1 }
      else
        { result := .ok installation.access_token, store := store
          refreshCalls := 0, storageWrites := 0 }

/-- The token fields the callback destructures from the authorization-code
exchange response: `{ refresh_token, access_token, expires_in }`. -/
structure TokenData where
  refresh_token : String
  access_token : String
  expires_in : Int
deriving DecidableEq

/-- The row the callback upserts: the exchanged tokens with
`expires_at = now + expires_in * 1000`. -/
def callbackRecord (now : Int) (tokenData : TokenData) : Installation :=
  { refresh_token := tokenData.refresh_token
    access_token := tokenData.access_token
    expires_at := now + tokenData.expires_in * 1000 }

/-- The storage effect of one successful `/api/oauth-callback` run
(src/server.js line 65; earlier variant line 71): upsert the exchanged
tokens onto the `id = 1` row, `onConflict: 'id'`. -/
def handleCallback (now : Int) (tokenData : TokenData) (store : Store) : Store :=
  upsertById store 1 (callbackRecord now tokenData)

/-- A sequence of successful callback runs, each with its own clock reading
and exchanged tokens, applied in order. -/
def runCallbacks (store : Store) (calls : List (Int × TokenData)) : Store :=
  calls.foldl (fun s c => handleCallback c.1 c.2 s) store

/-- `Math.round(num / den)` for nonnegative integers `num` and a positive
integer `den`: round half up, computed in exact integer arithmetic as
`(2 * num + den) / (2 * den)` (floor of `num / den + 1 / 2`). -/
def mathRound (num den : Nat) : Nat :=
  (2 * num + den) / (2 * den)

/-- A Metric Result, the object every probe returns:
`{ metric, value, description }`, with the `details` array only the
lifecycle-distribution probe adds (absent modelled as `[]`). -/
structure MetricResult where
  metric : String
  value : String
  description : String
  details : List (String × Int) := []
deriving DecidableEq

/-- A settled CRM search response: the HTTP `ok` flag and the `total` field
of the decoded JSON body. -/
structure SearchResponse where
  ok : Bool
  total : Nat
deriving DecidableEq

/-- The success path of `getFillRate`: rate is `Math.round` of
`filled / total * 100`, or `0` when `total` is `0`; the value is the rate
with a percent sign. -/
def fillRateSuccess (metricName : String) (totalBody filledBody : Nat) : MetricResult :=
  let rate := if 0 < totalBody then mathRound (filledBody * 100) totalBody else 0
  { metric := metricName, value := toString rate ++ "%"
    description := "Based on " ++ toString totalBody ++ " total records." }

/-- `getFillRate(objectType, properties, metricName)` (src/server.js lines
83-102). The oracle gives the pair of search responses (total count,
filled count); `Except.error e` is a rejected fetch or a thrown `.json()`
with message `e`, caught by the probe's own try/catch. -/
def getFillRate (objectType : String) (properties : List String) (metricName : String)
    (fetched : Except String (SearchResponse × SearchResponse)) : MetricResult :=
  match fetched with
  | .error e => { metric := metricName, value := "API Error", description := e }
  | .ok (totalRes, filledRes) =>
      if !totalRes.ok || !filledRes.ok then
        { metric := metricName, value := "API Error"
          description := "Could not fetch " ++ objectType ++ " data." }
      else
        fillRateSuccess metricName totalRes.total filledRes.total

/-- The success path of `getAssociationRate`: same rate formula as the fill
rate, over total contacts and contacts with `associatedcompanyid` set. -/
def associationSuccess (totalBody associatedBody : Nat) : MetricResult :=
  let rate := if 0 < totalBody then mathRound (associatedBody * 100) totalBody else 0
  { metric := "Contact Association Rate", value := toString rate ++ "%"
    description := toString associatedBody ++ " of " ++ toString totalBody ++
      " contacts are associated." }

/-- `getAssociationRate()` (src/server.js lines 104-118). -/
def getAssociationRate
    (fetched : Except String (SearchResponse × SearchResponse)) : MetricResult :=
  match fetched with
  | .error e =>
      { metric := "Contact Association Rate", value := "API Error", description := e }
  | .ok (totalRes, associatedRes) =>
      if !totalRes.ok || !associatedRes.ok then
        { metric := "Contact Association Rate", value := "API Error"
          description := "Failed to fetch contact data." }
      else
        associationSuccess totalRes.total associatedRes.total

/-- One contact property definition, with the fields the probe reads:
`hubspotDefined` and `description` (a JSON field that may be absent). -/
structure PropertyDef where
  hubspotDefined : Bool
  description : Option String
deriving DecidableEq

/-- The settled response of the property-definitions endpoint. -/
structure PropsResponse where
  ok : Bool
  results : List PropertyDef
deriving DecidableEq

/-- JS `String.prototype.trim()`: strip leading and trailing whitespace. -/
def jsTrim (s : String) : String :=
  ⟨((s.data.dropWhile Char.isWhitespace).reverse.dropWhile Char.isWhitespace).reverse⟩

/-- `p.description && p.description.trim() !== ''`: a present description
whose trim is nonempty (an absent or empty description is falsy). -/
def isDescribed (p : PropertyDef) : Bool :=
  match p.description with
  | none => false
  | some s => !(jsTrim s == "")

/-- The success path of `getPropertyDefinitionQuality`: among custom
(non-`hubspotDefined`) properties, the rounded percentage with a nonempty
description; `"N/A"` when there are no custom properties. -/
def propQualitySuccess (results : List PropertyDef) : MetricResult :=
  let customProps := results.filter (fun p => !p.hubspotDefined)
  if customProps.length == 0 then
    { metric := "Property Definition Quality", value := "N/A"
      description := "No custom contact properties found." }
  else
    let describedProps := (customProps.filter isDescribed).length
    let rate := mathRound (describedProps * 100) customProps.length
    { metric := "Property Definition Quality", value := toString rate ++ "%"
      description := toString describedProps ++ " of " ++ toString customProps.length ++
        " custom properties have descriptions." }

/-- `getPropertyDefinitionQuality()` (src/server.js lines 120-131). -/
def getPropertyDefinitionQuality (fetched : Except String PropsResponse) : MetricResult :=
  match fetched with
  | .error e =>
      { metric := "Property Definition Quality", value := "API Error", description := e }
  | .ok resp =>
      if !resp.ok then
        { metric := "Property Definition Quality", value := "API Error"
          description := "Could not fetch property definitions." }
      else
        propQualitySuccess resp.results

/-- The success path of `getDealRot`: the raw count, rendered in decimal. -/
def dealRotSuccess (total : Nat) : MetricResult :=
  { metric := "Deal Rot", value := toString total
    description := "Open deals with no activity in the last 30 days." }

/-- `getDealRot()` (src/server.js lines 133-149). -/
def getDealRot (fetched : Except String SearchResponse) : MetricResult :=
  match fetched with
  | .error e => { metric := "Deal Rot", value := "API Error", description := e }
  | .ok resp =>
      if !resp.ok then
        { metric := "Deal Rot", value := "API Error"
          description := "Could not fetch deal activity." }
      else
        dealRotSuccess resp.total

/-- One element of the aggregation response's `results` array. -/
structure AggItem where
  label : String
  count : Int
deriving DecidableEq

/-- The settled response of the contacts aggregation endpoint; `results`
may be absent from the body (`data.results || []`). -/
structure AggResponse where
  ok : Bool
  results : Option (List AggItem)
deriving DecidableEq

/-- The success path of `getLifecycleDistribution`: the per-stage breakdown
and, as the value, the number of distinct stages. -/
def lifecycleSuccess (results : Option (List AggItem)) : MetricResult :=
  let distribution := (results.getD []).map (fun item => (item.label, item.count))
  { metric := "Lifecycle Stage Distribution", value := toString distribution.length
    description := "Distinct stages in active use.", details := distribution }

/-- `getLifecycleDistribution()` (src/server.js lines 151-160). -/
def getLifecycleDistribution (fetched : Except String AggResponse) : MetricResult :=
  match fetched with
  | .error e =>
      { metric := "Lifecycle Stage Distribution", value := "API Error", description := e }
  | .ok resp =>
      if !resp.ok then
        { metric := "Lifecycle Stage Distribution", value := "API Error"
          description := "Requires Marketing Hub Pro+." }
      else
        lifecycleSuccess resp.results

/-- One element of the workflows listing, with the field the probe reads. -/
structure Workflow where
  enabled : Bool
deriving DecidableEq

/-- The settled response of the workflows endpoint; `results` may be absent
from the body (`data.results || []`). -/
structure WorkflowsResponse where
  ok : Bool
  results : Option (List Workflow)
deriving DecidableEq

/-- The success path of `getWorkflowCount`: the number of enabled workflows. -/
def workflowSuccess (results : Option (List Workflow)) : MetricResult :=
  let activeWorkflows := ((results.getD []).filter (fun wf => wf.enabled)).length
  { metric := "Active Workflow Count", value := toString activeWorkflows
    description := "Active workflows found." }

/-- `getWorkflowCount()` (src/server.js lines 162-170). -/
def getWorkflowCount (fetched : Except String WorkflowsResponse) : MetricResult :=
  match fetched with
  | .error e =>
      { metric := "Active Workflow Count", value := "API Error", description := e }
  | .ok resp =>
      if !resp.ok then
        { metric := "Active Workflow Count", value := "API Error"
          description := "Could not fetch workflows." }
      else
        workflowSuccess resp.results

/-- A two-search probe input counts as failed when the pair rejected/threw
or either response is non-ok. -/
def pairFailed (fetched : Except String (SearchResponse × SearchResponse)) : Bool :=
  match fetched with
  | .error _ => true
  | .ok (a, b) => !a.ok || !b.ok

/-- A single-search probe input counts as failed when it threw or the
response is non-ok. -/
def searchFailed (fetched : Except String SearchResponse) : Bool :=
  match fetched with
  | .error _ => true
  | .ok resp => !resp.ok

/-- Failure of the property-definitions fetch. -/
def propsFailed (fetched : Except String PropsResponse) : Bool :=
  match fetched with
  | .error _ => true
  | .ok resp => !resp.ok

/-- Failure of the aggregation fetch. -/
def aggFailed (fetched : Except String AggResponse) : Bool :=
  match fetched with
  | .error _ => true
  | .ok resp => !resp.ok

/-- Failure of the workflows fetch. -/
def wfFailed (fetched : Except String WorkflowsResponse) : Bool :=
  match fetched with
  | .error _ => true
  | .ok resp => !resp.ok

/-- The external responses one audit run observes, one field per probe, in
the probes' declaration order. -/
structure AuditEnv where
  contactsFill : Except String (SearchResponse × SearchResponse)
  companiesFill : Except String (SearchResponse × SearchResponse)
  dealsFill : Except String (SearchResponse × SearchResponse)
  association : Except String (SearchResponse × SearchResponse)
  propsQuality : Except String PropsResponse
  dealRot : Except String SearchResponse
  lifecycle : Except String AggResponse
  workflows : Except String WorkflowsResponse
deriving DecidableEq

/-- The `Promise.all` fan-out of `/api/ai-readiness-audit` (src/server.js
lines 172-181): all eight probes, collected in declaration order (which is
what `Promise.all` returns regardless of completion order). -/
def runAudit (env : AuditEnv) : List MetricResult :=
  [ getFillRate "contacts" ["lifecyclestage", "hs_lead_status", "phone"]
      "Core Contact Fill Rate" env.contactsFill
  , getFillRate "companies" ["industry", "city", "domain"]
      "Core Company Fill Rate" env.companiesFill
  , getFillRate "deals" ["amount", "dealstage", "closedate"]
      "Core Deal Fill Rate" env.dealsFill
  , getAssociationRate env.association
  , getPropertyDefinitionQuality env.propsQuality
  , getDealRot env.dealRot
  , getLifecycleDistribution env.lifecycle
  , getWorkflowCount env.workflows ]

/-- A field value of the audit route's JSON response body. -/
inductive ResponseValue where
  | results (rs : List MetricResult)
  | timestamp (t : Int)
deriving DecidableEq

/-- The JSON body a successful `/api/ai-readiness-audit` request sends
(src/server.js line 183): `res.json({ auditResults: results })`, modelled as
the ordered list of the body's key/value fields. -/
def aiReadinessAuditResponse (env : AuditEnv) : List (String × ResponseValue) :=
  [("auditResults", .results (runAudit env))]

/-- Concrete audit environment in which the contacts fill probe throws, the
lifecycle probe is answered non-ok, and the other six probes succeed. -/
def envW : AuditEnv :=
  { contactsFill := .error "network down"
    companiesFill := .ok (⟨true, 10⟩, ⟨true, 5⟩)
    dealsFill := .ok (⟨true, 8⟩, ⟨true, 2⟩)
    association := .ok (⟨true, 4⟩, ⟨true, 1⟩)
    propsQuality := .ok ⟨true, [⟨false, some "documented"⟩, ⟨true, none⟩]⟩
    dealRot := .ok ⟨true, 4⟩
    lifecycle := .ok ⟨false, none⟩
    workflows := .ok ⟨true, some [⟨true⟩, ⟨false⟩]⟩ }

/-- Concrete audit environment in which every probe succeeds. -/
def envC3 : AuditEnv :=
  { contactsFill := .ok (⟨true, 10⟩, ⟨true, 5⟩)
    companiesFill := .ok (⟨true, 10⟩, ⟨true, 2⟩)
    dealsFill := .ok (⟨true, 10⟩, ⟨true, 4⟩)
    association := .ok (⟨true, 10⟩, ⟨true, 9⟩)
    propsQuality := .ok ⟨true, [⟨false, some "d"⟩]⟩
    dealRot := .ok ⟨true, 3⟩
    lifecycle := .ok ⟨true, some [⟨"lead", 7⟩]⟩
    workflows := .ok ⟨true, some [⟨true⟩]⟩ }

/-- Concrete token table whose single record is still fresh at time 1000. -/
def freshStore : Store := [(1, ⟨"refr", "live-token", 2000⟩)]

/-- Concrete token table whose single record expired at time 500. -/
def staleStore : Store := [(1, ⟨"old-r", "stale-token", 500⟩)]

/-- Concrete refresh endpoint that always answers non-ok. -/
def failFetch : String → RefreshResponse := fun _ => ⟨false, "", 0, none⟩

/-- Concrete refresh endpoint that answers ok and rotates the refresh
token: the body carries a new `refresh_token`. -/
def rotatedFetch : String → RefreshResponse :=
  fun _ =>
    { ok := true, access_token := "new-access", expires_in := 3600
      refresh_token := some "new-refresh" }

/-- Concrete token table whose single record expired at time 0, holding the
refresh token `rotatedFetch` will be called with. -/
def rotatedStore : Store := [(1, ⟨"old-refresh", "old-access", 0⟩)]

example : mathRound (50 * 100) 200 = 25 := by decide

example : mathRound (1 * 100) 3 = 33 := by decide

example :
    getValidAccessToken none 5 (fun _ => ⟨true, "a2", 7, none⟩)
      [(1, ⟨"r", "a1", 9⟩)] =
    { result := .ok "a1", store := [(1, ⟨"r", "a1", 9⟩)]
      refreshCalls := 0, storageWrites := 0 } := by decide

example :
    getValidAccessToken none 10 (fun _ => ⟨true, "a2", 7, none⟩)
      [(1, ⟨"r", "a1", 9⟩)] =
    { result := .ok "a2", store := [(1, ⟨"r", "a2", 7010⟩)]
      refreshCalls := 1, storageWrites := 1 } := by decide

/-- Selecting a row after `updateRow` sees the selected row with just the
two updated columns overwritten; in particular its `refresh_token` column
is the one the row held before. -/
lemma selectSingle_updateRow (store : Store) (id : Nat) (a : String) (e : Int) :
    selectSingle (updateRow store id a e) id =
      (selectSingle store id).map
        (fun i => { i with access_token := a, expires_at := e }) := by
  induction store with
  | nil => rfl
  | cons head tail ih =>
      cases hk : (head.fst == id) <;>
        simp [selectSingle, updateRow, hk, ih]

/-- `updateRow` on a given id leaves every row with a different id alone. -/
lemma filter_ne_updateRow (store : Store) (id : Nat) (a : String) (e : Int) :
    (updateRow store id a e).filter (fun row => !(row.fst == id)) =
      store.filter (fun row => !(row.fst == id)) := by
  induction store with
  | nil => rfl
  | cons head tail ih =>
      cases hk : (head.fst == id) <;>
        simp [updateRow, List.filter_cons, hk, ih]

/-- Claim C5: for every tenant key (present or absent) with no Credential
Record, `getValidAccessToken` fails with InstallationMissing, makes no
refresh network call, attempts no recovery, and performs no storage write
(the store is returned unchanged). -/
theorem missing_installation_fails_fast (portalId : Option String) (now : Int)
    (refreshFetch : String → RefreshResponse) (store : Store)
    (habs : selectSingle store 1 = none) :
    getValidAccessToken portalId now refreshFetch store =
      { result := .error .installationMissing, store := store
        refreshCalls := 0, storageWrites := 0 } := by
  unfold getValidAccessToken
  rw [habs]

/-- Witness for C5 at the empty store. -/
theorem missing_installation_fails_fast_witness :
    selectSingle ([] : Store) 1 = none ∧
    getValidAccessToken (some "portal-77") 0 failFetch [] =
      { result := .error .installationMissing, store := []
        refreshCalls := 0, storageWrites := 0 } :=
  ⟨rfl, missing_installation_fails_fast (some "portal-77") 0 failFetch [] rfl⟩

/-- Claim C6: for a Credential Record whose `expires_at` is in the future,
`getValidAccessToken` returns the stored `access_token` unchanged, makes no
refresh network call, and leaves the stored record unmodified. -/
theorem valid_token_fast_path (portalId : Option String) (now : Int)
    (refreshFetch : String → RefreshResponse) (store : Store)
    (installation : Installation)
    (hfind : selectSingle store 1 = some installation)
    (hfut : now < installation.expires_at) :
    getValidAccessToken portalId now refreshFetch store =
      { result := .ok installation.access_token, store := store
        refreshCalls := 0, storageWrites := 0 } := by
  simp only [getValidAccessToken, hfind]
  rw [if_neg (by omega : ¬ now > installation.expires_at)]

/-- Witness for C6 at a concrete fresh record. -/
theorem valid_token_fast_path_witness :
    selectSingle freshStore 1 = some ⟨"refr", "live-token", 2000⟩ ∧
    ((1000 : Int) < 2000) ∧
    getValidAccessToken none 1000 failFetch freshStore =
      { result := .ok "live-token", store := freshStore
        refreshCalls := 0, storageWrites := 0 } :=
  ⟨rfl, by decide,
    valid_token_fast_path none 1000 failFetch freshStore
      ⟨"refr", "live-token", 2000⟩ rfl (by decide)⟩

/-- Claim C4: for a Credential Record whose `expires_at` is in the past, a
non-success refresh response makes `getValidAccessToken` fail with
RefreshFailed after exactly the one refresh call, with no storage write and
the store unchanged (no field of the record is mutated on the error path). -/
theorem refresh_failure_preserves_store (portalId : Option String) (now : Int)
    (refreshFetch : String → RefreshResponse) (store : Store)
    (installation : Installation)
    (hfind : selectSingle store 1 = some installation)
    (hexp : installation.expires_at < now)
    (hbad : (refreshFetch installation.refresh_token).ok = false) :
    getValidAccessToken portalId now refreshFetch store =
      { result := .error .refreshFailed, store := store
        refreshCalls := 1, storageWrites := 0 } := by
  simp only [getValidAccessToken, hfind]
  rw [if_pos hexp]
  simp [hbad]

/-- Witness for C4 at a concrete expired record and failing endpoint. -/
theorem refresh_failure_preserves_store_witness :
    selectSingle staleStore 1 = some ⟨"old-r", "stale-token", 500⟩ ∧
    ((500 : Int) < 900) ∧
    (failFetch "old-r").ok = false ∧
    getValidAccessToken (some "p") 900 failFetch staleStore =
      { result := .error .refreshFailed, store := staleStore
        refreshCalls := 1, storageWrites := 0 } :=
  ⟨rfl, by decide, rfl,
    refresh_failure_preserves_store (some "p") 900 failFetch staleStore
      ⟨"old-r", "stale-token", 500⟩ rfl (by decide) rfl⟩

/-- Claim C1 counterexample: with the record expired and a successful
refresh whose body carries a new `refresh_token` ("new-refresh"), the
stored record's `refresh_token` afterwards is still "old-refresh" — the new
refresh token is not stored, contrary to the claim's "in which case the new
refresh_token is stored". -/
theorem refresh_token_not_rotated_cex :
    (rotatedFetch "old-refresh").refresh_token = some "new-refresh" ∧
    (selectSingle (getValidAccessToken none 1000 rotatedFetch rotatedStore).store 1).map
        Installation.refresh_token = some "old-refresh" ∧
    ¬ (selectSingle (getValidAccessToken none 1000 rotatedFetch rotatedStore).store 1).map
        Installation.refresh_token = some "new-refresh" := by decide

/-- Claim C1 (amended): for a Credential Record whose `expires_at` is in
the past and a successful refresh response, `getValidAccessToken` returns
the new `access_token` and updates the stored record's `access_token` and
`expires_at` (to now + returned ttl); the stored `refresh_token` is always
the previously stored one — a new refresh_token returned by the provider is
never persisted. -/
theorem refresh_success_updates_tokens (portalId : Option String) (now : Int)
    (refreshFetch : String → RefreshResponse) (store : Store)
    (installation : Installation)
    (hfind : selectSingle store 1 = some installation)
    (hexp : installation.expires_at < now)
    (hok : (refreshFetch installation.refresh_token).ok = true) :
    getValidAccessToken portalId now refreshFetch store =
      { result := .ok (refreshFetch installation.refresh_token).access_token
        store := updateRow store 1 (refreshFetch installation.refresh_token).access_token
          (now + (refreshFetch installation.refresh_token).expires_in * 1000)
        refreshCalls := 1, storageWrites := 1 } ∧
    selectSingle (updateRow store 1 (refreshFetch installation.refresh_token).access_token
        (now + (refreshFetch installation.refresh_token).expires_in * 1000)) 1 =
      some { refresh_token := installation.refresh_token
             access_token := (refreshFetch installation.refresh_token).access_token
             expires_at := now + (refreshFetch installation.refresh_token).expires_in * 1000 } := by
  constructor
  · simp only [getValidAccessToken, hfind]
    rw [if_pos hexp]
    simp [hok]
  · rw [selectSingle_updateRow, hfind]
    rfl

/-- Witness for the amended C1 at the rotating provider: the new access
token and expiry are stored, the old refresh token is carried over. -/
theorem refresh_success_updates_tokens_witness :
    selectSingle rotatedStore 1 = some ⟨"old-refresh", "old-access", 0⟩ ∧
    ((0 : Int) < 1000) ∧
    (rotatedFetch "old-refresh").ok = true ∧
    (getValidAccessToken none 1000 rotatedFetch rotatedStore =
      { result := .ok (rotatedFetch "old-refresh").access_token
        store := updateRow rotatedStore 1 (rotatedFetch "old-refresh").access_token
          (1000 + (rotatedFetch "old-refresh").expires_in * 1000)
        refreshCalls := 1, storageWrites := 1 } ∧
     selectSingle (updateRow rotatedStore 1 (rotatedFetch "old-refresh").access_token
        (1000 + (rotatedFetch "old-refresh").expires_in * 1000)) 1 =
      some { refresh_token := "old-refresh"
             access_token := (rotatedFetch "old-refresh").access_token
             expires_at := 1000 + (rotatedFetch "old-refresh").expires_in * 1000 }) :=
  ⟨rfl, by decide, rfl,
    refresh_success_updates_tokens none 1000 rotatedFetch rotatedStore
      ⟨"old-refresh", "old-access", 0⟩ rfl (by decide) rfl⟩

/-- Claim C10: `getValidAccessToken` is independent of the tenant
identifier passed to it (including the identifier being absent): any two
identifiers produce identical outcomes — same returned token, same thrown
error, same resulting store, same call counts — and the only row the
function can touch is the fixed singleton row id = 1: every row with a
different id is left exactly as it was. -/
theorem token_manager_tenant_independent (p1 p2 : Option String) (now : Int)
    (refreshFetch : String → RefreshResponse) (store : Store) :
    getValidAccessToken p1 now refreshFetch store =
      getValidAccessToken p2 now refreshFetch store ∧
    (getValidAccessToken p1 now refreshFetch store).store.filter
        (fun row => !(row.fst == 1)) =
      store.filter (fun row => !(row.fst == 1)) := by
  refine ⟨rfl, ?_⟩
  cases hfind : selectSingle store 1 with
  | none => simp only [getValidAccessToken, hfind]
  | some installation =>
      simp only [getValidAccessToken, hfind]
      by_cases hexp : now > installation.expires_at
      · rw [if_pos hexp]
        by_cases hok : (refreshFetch installation.refresh_token).ok = true
        · simp only [hok, Bool.not_true, Bool.false_eq_true, if_false]
          simpa using filter_ne_updateRow store 1
            (refreshFetch installation.refresh_token).access_token
            (now + (refreshFetch installation.refresh_token).expires_in * 1000)
        · have hbad : (refreshFetch installation.refresh_token).ok = false := by
            simpa using hok
          simp [hbad]
      · rw [if_neg hexp]

/-- Replacing matching rows leaves the sequence of keys untouched. -/
lemma map_fst_upsertReplace (store : Store) (id : Nat) (row : Installation) :
    (upsertReplace store id row).map Prod.fst = store.map Prod.fst := by
  induction store with
  | nil => rfl
  | cons head tail ih =>
      by_cases hk : head.fst = id <;> simp [upsertReplace, hk, ih]

/-- The upsert preserves key uniqueness: a conflict replaces in place, and
the append branch only fires when the key is absent. -/
lemma nodup_upsertById (store : Store) (id : Nat) (row : Installation)
    (h : (store.map Prod.fst).Nodup) :
    ((upsertById store id row).map Prod.fst).Nodup := by
  unfold upsertById
  by_cases hany : store.any (fun r => r.fst == id) = true
  · rw [if_pos hany, map_fst_upsertReplace]
    exact h
  · rw [if_neg hany]
    have hid : id ∉ store.map Prod.fst := by
      intro hmem
      obtain ⟨r, hr, hfst⟩ := List.mem_map.mp hmem
      exact hany (List.any_eq_true.mpr ⟨r, hr, by simp [hfst]⟩)
    simp [List.nodup_append, h, hid, List.disjoint_left]

/-- Replacing on a key no row carries is a no-op. -/
lemma upsertReplace_no_match (store : Store) (id : Nat) (row : Installation)
    (h : ∀ r ∈ store, (r.fst == id) = false) :
    upsertReplace store id row = store := by
  induction store with
  | nil => rfl
  | cons head tail ih =>
      have hh := h head (by simp)
      simp [upsertReplace, hh,
        ih (fun r hr => h r (List.mem_cons_of_mem _ hr))]

/-- Filtering for a key no row carries gives the empty list. -/
lemma filter_eq_nil_of_no_match (store : Store) (id : Nat)
    (h : ∀ r ∈ store, (r.fst == id) = false) :
    store.filter (fun r => r.fst == id) = [] := by
  induction store with
  | nil => rfl
  | cons head tail ih =>
      simp [List.filter_cons, h head (by simp),
        ih (fun r hr => h r (List.mem_cons_of_mem _ hr))]

/-- With unique keys and at least one matching row, the conflict branch of
the upsert leaves exactly one row with the key: the fresh one. -/
lemma filter_upsertReplace (store : Store) (id : Nat) (row : Installation)
    (h : (store.map Prod.fst).Nodup) (hany : store.any (fun r => r.fst == id) = true) :
    (upsertReplace store id row).filter (fun r => r.fst == id) = [(id, row)] := by
  induction store with
  | nil => cases hany
  | cons head tail ih =>
      rw [List.map_cons, List.nodup_cons] at h
      by_cases hk : head.fst = id
      · have htail : ∀ r ∈ tail, (r.fst == id) = false := by
          intro r hr
          by_contra hc
          have hr1 : r.fst = id := by simpa using hc
          apply h.1
          rw [hk, ← hr1]
          exact List.mem_map_of_mem Prod.fst hr
        simp only [upsertReplace]
        rw [if_pos (by simp [hk] : (head.fst == id) = true)]
        rw [upsertReplace_no_match tail id row htail]
        simp [List.filter_cons, filter_eq_nil_of_no_match tail id htail]
      · have hk' : (head.fst == id) = false := by simpa using hk
        have hany' : tail.any (fun r => r.fst == id) = true := by
          rcases List.any_eq_true.mp hany with ⟨r, hr, hp⟩
          rcases List.mem_cons.mp hr with h1 | h1
          · rw [h1] at hp
            rw [hk'] at hp
            cases hp
          · exact List.any_eq_true.mpr ⟨r, h1, hp⟩
        simp [upsertReplace, List.filter_cons, hk', ih h.2 hany']

/-- With unique keys, after an upsert exactly one row carries the key: the
fresh one — in both the conflict and the insert branch. -/
lemma filter_upsertById_eq (store : Store) (id : Nat) (row : Installation)
    (h : (store.map Prod.fst).Nodup) :
    (upsertById store id row).filter (fun r => r.fst == id) = [(id, row)] := by
  unfold upsertById
  by_cases hany : store.any (fun r => r.fst == id) = true
  · rw [if_pos hany]
    exact filter_upsertReplace store id row h hany
  · rw [if_neg hany]
    have hall : ∀ r ∈ store, (r.fst == id) = false := by
      intro r hr
      by_contra hc
      exact hany (List.any_eq_true.mpr ⟨r, hr, by simpa using hc⟩)
    rw [List.filter_append, filter_eq_nil_of_no_match store id hall]
    simp [List.filter_cons]

/-- Any sequence of callback runs preserves key uniqueness. -/
lemma nodup_runCallbacks (calls : List (Int × TokenData)) (store : Store)
    (h : (store.map Prod.fst).Nodup) :
    ((runCallbacks store calls).map Prod.fst).Nodup := by
  induction calls generalizing store with
  | nil => exact h
  | cons c cs ih => exact ih _ (nodup_upsertById _ _ _ h)

/-- Peeling the last callback off a run. -/
lemma runCallbacks_snoc (store : Store) (calls : List (Int × TokenData))
    (c : Int × TokenData) :
    runCallbacks store (calls ++ [c]) = handleCallback c.1 c.2 (runCallbacks store calls) := by
  simp [runCallbacks, List.foldl_append]

/-- Claim C9: starting from any store with unique tenant keys, after any
nonempty sequence of successful callback runs the store still has unique
keys, and exactly one Credential Record carries the tenant's key (the fixed
row id = 1), holding the tokens of the most recent run. -/
theorem callback_upsert_idempotent (store : Store) (calls : List (Int × TokenData))
    (hnodup : (store.map Prod.fst).Nodup) (hne : calls ≠ []) :
    ((runCallbacks store calls).map Prod.fst).Nodup ∧
    (runCallbacks store calls).filter (fun row => row.fst == 1) =
      [(1, callbackRecord (calls.getLast hne).1 (calls.getLast hne).2)] := by
  refine ⟨nodup_runCallbacks calls store hnodup, ?_⟩
  obtain ⟨l, c, hlc⟩ : ∃ l c, calls = l ++ [c] :=
    ⟨calls.dropLast, calls.getLast hne, (List.dropLast_append_getLast hne).symm⟩
  subst hlc
  have hlast : (l ++ [c]).getLast hne = c := by
    simp [List.getLast_append]
  rw [hlast, runCallbacks_snoc]
  exact filter_upsertById_eq _ 1 _ (nodup_runCallbacks l store hnodup)

/-- Concrete pair of callback runs for the C9 witness: two distinct token
exchanges at times 0 and 5. -/
def callsW : List (Int × TokenData) := [(0, ⟨"r1", "a1", 10⟩), (5, ⟨"r2", "a2", 20⟩)]

/-- Witness for C9: two callback runs from the empty store leave exactly
one record, holding the second run's tokens. -/
theorem callback_upsert_idempotent_witness :
    (([] : Store).map Prod.fst).Nodup ∧ callsW ≠ [] ∧
    (((runCallbacks [] callsW).map Prod.fst).Nodup ∧
     (runCallbacks [] callsW).filter (fun row => row.fst == 1) =
       [(1, callbackRecord 5 ⟨"r2", "a2", 20⟩)]) :=
  ⟨List.nodup_nil, by decide, callback_upsert_idempotent [] callsW List.nodup_nil (by decide)⟩

/-- Claim C7: a fill-rate probe with zero total records reports "0%" (a
defined value, not an error); with a positive total it reports
round(matching / total x 100) percent; and total = 200, matching = 50 gives
"25%". -/
theorem fill_rate_rounding (objectType : String) (props : List String)
    (metricName : String) (matching total : Nat) :
    (getFillRate objectType props metricName
        (.ok (⟨true, 0⟩, ⟨true, matching⟩))).value = "0%" ∧
    (0 < total →
      (getFillRate objectType props metricName
          (.ok (⟨true, total⟩, ⟨true, matching⟩))).value =
        toString (mathRound (matching * 100) total) ++ "%") ∧
    (getFillRate objectType props metricName
        (.ok (⟨true, 200⟩, ⟨true, 50⟩))).value = "25%" := by
  refine ⟨?_, ?_, ?_⟩
  · show (toString 0 ++ "%" : String) = "0%"
    decide
  · intro ht
    simp [getFillRate, fillRateSuccess, ht]
  · show (toString (mathRound (50 * 100) 200) ++ "%" : String) = "25%"
    decide

/-- Witness for C7 at the contacts probe with 50 of 200 records matching. -/
theorem fill_rate_rounding_witness :
    0 < 200 ∧
    (getFillRate "contacts" ["lifecyclestage", "hs_lead_status", "phone"]
        "Core Contact Fill Rate" (.ok (⟨true, 200⟩, ⟨true, 50⟩))).value =
      toString (mathRound (50 * 100) 200) ++ "%" :=
  ⟨by decide,
    (fill_rate_rounding "contacts" ["lifecyclestage", "hs_lead_status", "phone"]
      "Core Contact Fill Rate" 50 200).2.1 (by decide)⟩

/-- Claim C8: the property-quality probe reports "N/A" when there are no
custom properties, and otherwise the rounded percentage of custom
properties with a nonempty description; 3 custom properties with exactly 1
described give "33%". -/
theorem property_quality_rounding (results : List PropertyDef) :
    (results.filter (fun p => !p.hubspotDefined) = [] →
      (getPropertyDefinitionQuality (.ok ⟨true, results⟩)).value = "N/A") ∧
    (results.filter (fun p => !p.hubspotDefined) ≠ [] →
      (getPropertyDefinitionQuality (.ok ⟨true, results⟩)).value =
        toString (mathRound
          (((results.filter (fun p => !p.hubspotDefined)).filter isDescribed).length * 100)
          (results.filter (fun p => !p.hubspotDefined)).length) ++ "%") ∧
    (getPropertyDefinitionQuality
        (.ok ⟨true, [⟨true, some "provider"⟩, ⟨false, some "documented"⟩,
          ⟨false, none⟩, ⟨false, some "  "⟩]⟩)).value = "33%" := by
  refine ⟨?_, ?_, by decide⟩
  · intro h
    simp [getPropertyDefinitionQuality, propQualitySuccess, h]
  · intro h
    simp [getPropertyDefinitionQuality, propQualitySuccess, List.length_eq_zero, h]

/-- Witness for C8 at one provider-defined and three custom properties, one
of which carries a nonempty description. -/
theorem property_quality_rounding_witness :
    ([⟨true, some "provider"⟩, ⟨false, some "documented"⟩, ⟨false, none⟩,
        (⟨false, some "  "⟩ : PropertyDef)].filter (fun p => !p.hubspotDefined) ≠ []) ∧
    (getPropertyDefinitionQuality
        (.ok ⟨true, [⟨true, some "provider"⟩, ⟨false, some "documented"⟩,
          ⟨false, none⟩, ⟨false, some "  "⟩]⟩)).value =
      toString (mathRound
        ((([⟨true, some "provider"⟩, ⟨false, some "documented"⟩, ⟨false, none⟩,
            (⟨false, some "  "⟩ : PropertyDef)].filter
              (fun p => !p.hubspotDefined)).filter isDescribed).length * 100)
        ([⟨true, some "provider"⟩, ⟨false, some "documented"⟩, ⟨false, none⟩,
            (⟨false, some "  "⟩ : PropertyDef)].filter
              (fun p => !p.hubspotDefined)).length) ++ "%" :=
  ⟨by decide,
    (property_quality_rounding [⟨true, some "provider"⟩, ⟨false, some "documented"⟩,
      ⟨false, none⟩, ⟨false, some "  "⟩]).2.1 (by decide)⟩

/-- Claim C3 counterexample: at a fully successful audit run the response
envelope carries no "timestamp" field; its only key is "auditResults". The
claim's "also contains a generation timestamp" is false at this input. -/
theorem audit_envelope_no_timestamp_cex :
    ¬ ("timestamp" ∈ (aiReadinessAuditResponse envC3).map Prod.fst) := by decide

/-- Claim C3 (amended): every successful audit responds with the collected
sequence of Metric Results wrapped in an envelope whose only field is
`auditResults`; the envelope contains no generation timestamp. -/
theorem audit_envelope_shape (env : AuditEnv) :
    aiReadinessAuditResponse env = [("auditResults", .results (runAudit env))] ∧
    ¬ ("timestamp" ∈ (aiReadinessAuditResponse env).map Prod.fst) := by
  refine ⟨rfl, ?_⟩
  show "timestamp" ∉ (["auditResults"] : List String)
  decide

/-- A failed fill-rate input yields the sentinel value. -/
lemma getFillRate_failed (ot : String) (props : List String) (name : String)
    (fetched : Except String (SearchResponse × SearchResponse))
    (h : pairFailed fetched = true) :
    (getFillRate ot props name fetched).value = "API Error" := by
  cases fetched with
  | error e => rfl
  | ok p =>
      obtain ⟨a, b⟩ := p
      simp only [pairFailed] at h
      simp [getFillRate, h]

/-- A fully successful fill-rate input yields the normal result. -/
lemma getFillRate_ok (ot : String) (props : List String) (name : String)
    (a b : SearchResponse) (ha : a.ok = true) (hb : b.ok = true) :
    getFillRate ot props name (.ok (a, b)) = fillRateSuccess name a.total b.total := by
  simp [getFillRate, ha, hb]

/-- Every fill-rate outcome is tagged with the requested metric name. -/
lemma getFillRate_metric (ot : String) (props : List String) (name : String)
    (fetched : Except String (SearchResponse × SearchResponse)) :
    (getFillRate ot props name fetched).metric = name := by
  cases fetched with
  | error e => rfl
  | ok p =>
      obtain ⟨a, b⟩ := p
      simp only [getFillRate]
      split <;> rfl

/-- A failed association input yields the sentinel value. -/
lemma getAssociationRate_failed
    (fetched : Except String (SearchResponse × SearchResponse))
    (h : pairFailed fetched = true) :
    (getAssociationRate fetched).value = "API Error" := by
  cases fetched with
  | error e => rfl
  | ok p =>
      obtain ⟨a, b⟩ := p
      simp only [pairFailed] at h
      simp [getAssociationRate, h]

/-- A fully successful association input yields the normal result. -/
lemma getAssociationRate_ok (a b : SearchResponse)
    (ha : a.ok = true) (hb : b.ok = true) :
    getAssociationRate (.ok (a, b)) = associationSuccess a.total b.total := by
  simp [getAssociationRate, ha, hb]

/-- The association probe is always tagged with its fixed metric name. -/
lemma getAssociationRate_metric
    (fetched : Except String (SearchResponse × SearchResponse)) :
    (getAssociationRate fetched).metric = "Contact Association Rate" := by
  cases fetched with
  | error e => rfl
  | ok p =>
      obtain ⟨a, b⟩ := p
      simp only [getAssociationRate]
      split <;> rfl

/-- A failed property-quality input yields the sentinel value. -/
lemma getPropertyDefinitionQuality_failed (fetched : Except String PropsResponse)
    (h : propsFailed fetched = true) :
    (getPropertyDefinitionQuality fetched).value = "API Error" := by
  cases fetched with
  | error e => rfl
  | ok r =>
      simp only [propsFailed] at h
      simp [getPropertyDefinitionQuality, h]

/-- A successful property-quality input yields the normal result. -/
lemma getPropertyDefinitionQuality_ok (r : PropsResponse) (hr : r.ok = true) :
    getPropertyDefinitionQuality (.ok r) = propQualitySuccess r.results := by
  simp [getPropertyDefinitionQuality, hr]

/-- The property-quality probe is always tagged with its fixed metric name. -/
lemma getPropertyDefinitionQuality_metric (fetched : Except String PropsResponse) :
    (getPropertyDefinitionQuality fetched).metric = "Property Definition Quality" := by
  cases fetched with
  | error e => rfl
  | ok r =>
      simp only [getPropertyDefinitionQuality, propQualitySuccess]
      split
      · rfl
      · split <;> rfl

/-- A failed deal-rot input yields the sentinel value. -/
lemma getDealRot_failed (fetched : Except String SearchResponse)
    (h : searchFailed fetched = true) :
    (getDealRot fetched).value = "API Error" := by
  cases fetched with
  | error e => rfl
  | ok r =>
      simp only [searchFailed] at h
      simp [getDealRot, h]

/-- A successful deal-rot input yields the normal result. -/
lemma getDealRot_ok (r : SearchResponse) (hr : r.ok = true) :
    getDealRot (.ok r) = dealRotSuccess r.total := by
  simp [getDealRot, hr]

/-- The deal-rot probe is always tagged with its fixed metric name. -/
lemma getDealRot_metric (fetched : Except String SearchResponse) :
    (getDealRot fetched).metric = "Deal Rot" := by
  cases fetched with
  | error e => rfl
  | ok r =>
      simp only [getDealRot]
      split <;> rfl

/-- A failed lifecycle input yields the sentinel value. -/
lemma getLifecycleDistribution_failed (fetched : Except String AggResponse)
    (h : aggFailed fetched = true) :
    (getLifecycleDistribution fetched).value = "API Error" := by
  cases fetched with
  | error e => rfl
  | ok r =>
      simp only [aggFailed] at h
      simp [getLifecycleDistribution, h]

/-- A successful lifecycle input yields the normal result. -/
lemma getLifecycleDistribution_ok (r : AggResponse) (hr : r.ok = true) :
    getLifecycleDistribution (.ok r) = lifecycleSuccess r.results := by
  simp [getLifecycleDistribution, hr]

/-- The lifecycle probe is always tagged with its fixed metric name. -/
lemma getLifecycleDistribution_metric (fetched : Except String AggResponse) :
    (getLifecycleDistribution fetched).metric = "Lifecycle Stage Distribution" := by
  cases fetched with
  | error e => rfl
  | ok r =>
      simp only [getLifecycleDistribution]
      split <;> rfl

/-- A failed workflows input yields the sentinel value. -/
lemma getWorkflowCount_failed (fetched : Except String WorkflowsResponse)
    (h : wfFailed fetched = true) :
    (getWorkflowCount fetched).value = "API Error" := by
  cases fetched with
  | error e => rfl
  | ok r =>
      simp only [wfFailed] at h
      simp [getWorkflowCount, h]

/-- A successful workflows input yields the normal result. -/
lemma getWorkflowCount_ok (r : WorkflowsResponse) (hr : r.ok = true) :
    getWorkflowCount (.ok r) = workflowSuccess r.results := by
  simp [getWorkflowCount, hr]

/-- The workflows probe is always tagged with its fixed metric name. -/
lemma getWorkflowCount_metric (fetched : Except String WorkflowsResponse) :
    (getWorkflowCount fetched).metric = "Active Workflow Count" := by
  cases fetched with
  | error e => rfl
  | ok r =>
      simp only [getWorkflowCount]
      split <;> rfl

/-- Claim C2: every audit run returns exactly one Metric Result per
declared probe — eight in all, in the probes' fixed declaration order
(witnessed by the fixed metric-name sequence and the per-index equations) —
and this holds whatever each probe's input: a probe whose fetch threw or
came back non-ok contributes the sentinel value "API Error" at its
position, while every non-failing probe contributes its normal success
result at its position. -/
theorem audit_isolation (env : AuditEnv) :
    (runAudit env).length = 8 ∧
    (runAudit env).map (fun r => r.metric) =
      ["Core Contact Fill Rate", "Core Company Fill Rate", "Core Deal Fill Rate",
       "Contact Association Rate", "Property Definition Quality", "Deal Rot",
       "Lifecycle Stage Distribution", "Active Workflow Count"] ∧
    (pairFailed env.contactsFill = true →
      ((runAudit env).get? 0).map (fun r => r.value) = some "API Error") ∧
    (∀ a b, env.contactsFill = .ok (a, b) → a.ok = true → b.ok = true →
      (runAudit env).get? 0 = some (fillRateSuccess "Core Contact Fill Rate" a.total b.total)) ∧
    (pairFailed env.companiesFill = true →
      ((runAudit env).get? 1).map (fun r => r.value) = some "API Error") ∧
    (∀ a b, env.companiesFill = .ok (a, b) → a.ok = true → b.ok = true →
      (runAudit env).get? 1 = some (fillRateSuccess "Core Company Fill Rate" a.total b.total)) ∧
    (pairFailed env.dealsFill = true →
      ((runAudit env).get? 2).map (fun r => r.value) = some "API Error") ∧
    (∀ a b, env.dealsFill = .ok (a, b) → a.ok = true → b.ok = true →
      (runAudit env).get? 2 = some (fillRateSuccess "Core Deal Fill Rate" a.total b.total)) ∧
    (pairFailed env.association = true →
      ((runAudit env).get? 3).map (fun r => r.value) = some "API Error") ∧
    (∀ a b, env.association = .ok (a, b) → a.ok = true → b.ok = true →
      (runAudit env).get? 3 = some (associationSuccess a.total b.total)) ∧
    (propsFailed env.propsQuality = true →
      ((runAudit env).get? 4).map (fun r => r.value) = some "API Error") ∧
    (∀ r, env.propsQuality = .ok r → r.ok = true →
      (runAudit env).get? 4 = some (propQualitySuccess r.results)) ∧
    (searchFailed env.dealRot = true →
      ((runAudit env).get? 5).map (fun r => r.value) = some "API Error") ∧
    (∀ r, env.dealRot = .ok r → r.ok = true →
      (runAudit env).get? 5 = some (dealRotSuccess r.total)) ∧
    (aggFailed env.lifecycle = true →
      ((runAudit env).get? 6).map (fun r => r.value) = some "API Error") ∧
    (∀ r, env.lifecycle = .ok r → r.ok = true →
      (runAudit env).get? 6 = some (lifecycleSuccess r.results)) ∧
    (wfFailed env.workflows = true →
      ((runAudit env).get? 7).map (fun r => r.value) = some "API Error") ∧
    (∀ r, env.workflows = .ok r → r.ok = true →
      (runAudit env).get? 7 = some (workflowSuccess r.results)) := by
  refine ⟨rfl, ?_, ?_, ?_, ?_, ?_, ?_, ?_, ?_, ?_, ?_, ?_, ?_, ?_, ?_, ?_, ?_, ?_⟩
  · simp [runAudit, getFillRate_metric, getAssociationRate_metric,
      getPropertyDefinitionQuality_metric, getDealRot_metric,
      getLifecycleDistribution_metric, getWorkflowCount_metric]
  · intro h
    show some (getFillRate "contacts" ["lifecyclestage", "hs_lead_status", "phone"]
        "Core Contact Fill Rate" env.contactsFill).value = some "API Error"
    rw [getFillRate_failed _ _ _ _ h]
  · intro a b hef ha hb
    show some (getFillRate "contacts" ["lifecyclestage", "hs_lead_status", "phone"]
        "Core Contact Fill Rate" env.contactsFill) =
      some (fillRateSuccess "Core Contact Fill Rate" a.total b.total)
    rw [hef, getFillRate_ok _ _ _ _ _ ha hb]
  · intro h
    show some (getFillRate "companies" ["industry", "city", "domain"]
        "Core Company Fill Rate" env.companiesFill).value = some "API Error"
    rw [getFillRate_failed _ _ _ _ h]
  · intro a b hef ha hb
    show some (getFillRate "companies" ["industry", "city", "domain"]
        "Core Company Fill Rate" env.companiesFill) =
      some (fillRateSuccess "Core Company Fill Rate" a.total b.total)
    rw [hef, getFillRate_ok _ _ _ _ _ ha hb]
  · intro h
    show some (getFillRate "deals" ["amount", "dealstage", "closedate"]
        "Core Deal Fill Rate" env.dealsFill).value = some "API Error"
    rw [getFillRate_failed _ _ _ _ h]
  · intro a b hef ha hb
    show some (getFillRate "deals" ["amount", "dealstage", "closedate"]
        "Core Deal Fill Rate" env.dealsFill) =
      some (fillRateSuccess "Core Deal Fill Rate" a.total b.total)
    rw [hef, getFillRate_ok _ _ _ _ _ ha hb]
  · intro h
    show some (getAssociationRate env.association).value = some "API Error"
    rw [getAssociationRate_failed _ h]
  · intro a b hef ha hb
    show some (getAssociationRate env.association) =
      some (associationSuccess a.total b.total)
    rw [hef, getAssociationRate_ok _ _ ha hb]
  · intro h
    show some (getPropertyDefinitionQuality env.propsQuality).value = some "API Error"
    rw [getPropertyDefinitionQuality_failed _ h]
  · intro r hef hr
    show some (getPropertyDefinitionQuality env.propsQuality) =
      some (propQualitySuccess r.results)
    rw [hef, getPropertyDefinitionQuality_ok _ hr]
  · intro h
    show some (getDealRot env.dealRot).value = some "API Error"
    rw [getDealRot_failed _ h]
  · intro r hef hr
    show some (getDealRot env.dealRot) = some (dealRotSuccess r.total)
    rw [hef, getDealRot_ok _ hr]
  · intro h
    show some (getLifecycleDistribution env.lifecycle).value = some "API Error"
    rw [getLifecycleDistribution_failed _ h]
  · intro r hef hr
    show some (getLifecycleDistribution env.lifecycle) = some (lifecycleSuccess r.results)
    rw [hef, getLifecycleDistribution_ok _ hr]
  · intro h
    show some (getWorkflowCount env.workflows).value = some "API Error"
    rw [getWorkflowCount_failed _ h]
  · intro r hef hr
    show some (getWorkflowCount env.workflows) = some (workflowSuccess r.results)
    rw [hef, getWorkflowCount_ok _ hr]

/-- Witness for C2 at `envW`: the throwing contacts probe and the non-ok
lifecycle probe contribute "API Error" entries at their positions while the
successful deal-rot probe contributes its normal count, in an
eight-element result. -/
theorem audit_isolation_witness :
    pairFailed envW.contactsFill = true ∧
    aggFailed envW.lifecycle = true ∧
    envW.dealRot = .ok ⟨true, 4⟩ ∧
    (runAudit envW).length = 8 ∧
    ((runAudit envW).get? 0).map (fun r => r.value) = some "API Error" ∧
    ((runAudit envW).get? 6).map (fun r => r.value) = some "API Error" ∧
    (runAudit envW).get? 5 = some (dealRotSuccess 4) := by
  obtain ⟨h1, h2, h3, h4, h5, h6, h7, h8, h9, h10, h11, h12, h13, h14, h15, h16, h17, h18⟩ :=
    audit_isolation envW
  exact ⟨rfl, rfl, rfl, h1, h3 rfl, h15 rfl, h14 ⟨true, 4⟩ rfl rfl⟩

end AiReadiness
